import Mathlib

/-!
Shallow embedding of the connection and session lifecycle subsystem of the
easy-mcp-use repository: the `ConnectionManager` promise-deduplicated
start/stop state machine, connector-type inference from server configs
(`createConnectorFromConfig`), the `BaseConnector` / `MCPSession` capability
cache, the `MCPClient` registries, and the `ServerManager` active-server
selection layer.  Asynchronous I/O steps performed by external collaborators
(the MCP SDK client, transports, the LangChain adapter) are represented by
explicit outcome parameters ("oracles"); everything else is translated
directly from the TypeScript source.
-/

namespace EasyMcpUse

/-- Outcome of an asynchronous connect attempt: the settled value of the
`connectPromise` in `ConnectionManager.start`. -/
inductive Outcome (T : Type) where
  | success (c : T)
  | failure (e : String)
  deriving DecidableEq, Repr

/-- State of a `ConnectionManager<T>` (src/unnamed/part_004).  `pendingId`
models the stored `connectPromise` (`some i` while attempt `i` is in flight;
ids distinguish attempts so that "returns the same pending result" is
expressible).  `disconnectPending` models a stored `disconnectPromise`. -/
structure CMState (T : Type) where
  connection : Option T := none
  isReady : Bool := false
  error : Option String := none
  pendingId : Option Nat := none
  nextId : Nat := 0
  disconnectPending : Bool := false
  deriving DecidableEq, Repr

/-- What a single synchronous call to `start()` returns to its caller:
the already-established connection, the identity of the pending attempt it
awaits (`joined i` / `started i` both await attempt `i`), where `started`
additionally means this call began the attempt (one `_establishConnection`
invocation). -/
inductive StartRes (T : Type) where
  | existing (c : T)
  | joined (i : Nat)
  | started (i : Nat)
  deriving DecidableEq, Repr

/-- The synchronous part of `ConnectionManager.start()`: return the cached
connection if present; return the in-flight `connectPromise` if present;
otherwise clear `isReady`/`error` and store a fresh attempt. -/
def startCall {T : Type} (s : CMState T) : CMState T × StartRes T :=
  match s.connection with
  | some c => (s, .existing c)
  | none =>
    match s.pendingId with
    | some i => (s, .joined i)
    | none =>
      ({ s with isReady := false, error := none,
                pendingId := some s.nextId, nextId := s.nextId + 1 },
       .started s.nextId)

/-- Settlement of the in-flight connect attempt (the body of the async IIFE
in `start()`): success caches the connection and sets `isReady`; failure
clears all state; either way the `connectPromise` is cleared. -/
def settleConnect {T : Type} (s : CMState T) (o : Outcome T) : CMState T :=
  match o with
  | .success c =>
      { s with connection := some c, isReady := true, error := none,
               pendingId := none }
  | .failure e =>
      { s with connection := none, isReady := false, error := some e,
               pendingId := none }

/-- Runs `n` consecutive `start()` calls with no settlement in between (all issued
before the first attempt settles). -/
def startCalls {T : Type} (s : CMState T) : Nat → CMState T × List (StartRes T)
  | 0 => (s, [])
  | n + 1 =>
    let p := startCall s
    let q := startCalls p.1 n
    (q.1, p.2 :: q.2)

/-- The outcome a `start()` caller ultimately observes: a caller handed the
cached connection observes that success; a caller awaiting attempt `i`
(whether it started or joined it) observes that attempt's settled outcome. -/
def observe {T : Type} (r : StartRes T) (o : Outcome T) : Outcome T :=
  match r with
  | .existing c => .success c
  | .joined _ => o
  | .started _ => o

/-- Whether a `start()` call began a new attempt (invoked
`_establishConnection`). -/
def StartRes.isStarted {T : Type} : StartRes T → Bool
  | .started _ => true
  | _ => false

/-- What a single `stop()` call returns/does (src/unnamed/part_004 lines
83-132).  No constructor represents a raised error: close failures are
logged (`closeErrorLogged`) and never re-thrown. -/
inductive StopRes where
  | nothingToStop
  | joinedDisconnect
  | connectFailedNoop
  | closedOk
  | closeErrorLogged (e : String)
  deriving DecidableEq, Repr

/-- Whether the transport-specific `_closeConnection` was invoked. -/
def StopRes.closeInvoked : StopRes → Bool
  | .closedOk => true
  | .closeErrorLogged _ => true
  | _ => false

/-- Model of `ConnectionManager.stop()`.  `o` is the outcome the pending connect
attempt settles with (consulted only when a connect is pending, since
`stop()` first awaits `connectPromise`); `cr` is the result of the
transport-specific `_closeConnection`.  Mirrors the source: nothing to stop
when neither connected nor connecting; join an in-flight disconnect; await a
pending connect and return without closing if it failed; otherwise clear the
connection reference before closing, and log (never re-throw) close
failures. -/
def stopCall {T : Type} (s : CMState T) (o : Outcome T)
    (cr : Except String Unit) : CMState T × StopRes :=
  if s.connection.isNone && s.pendingId.isNone then
    (s, .nothingToStop)
  else if s.disconnectPending then
    (s, .joinedDisconnect)
  else
    let settled : CMState T × Bool :=
      match s.pendingId with
      | some _ =>
        match o with
        | .failure e => (settleConnect s (.failure e), true)
        | .success c => (settleConnect s (.success c), false)
      | none => (s, false)
    if settled.2 then
      (settled.1, .connectFailedNoop)
    else
      match settled.1.connection with
      | none => (settled.1, .nothingToStop)
      | some _ =>
        let s2 := { settled.1 with connection := none, isReady := false }
        match cr with
        | .ok _ => (s2, .closedOk)
        | .error e => (s2, .closeErrorLogged e)

/-- A tool name-and-schema record; claims never inspect the schema, so a
tool is represented by its name. -/
abbrev Tool := String

/-- A server configuration (src/src/config.ts): a JS object whose optional
keys determine the connector variant.  `field = some _` models presence of
the key (the `'key' in serverConfig` test). -/
structure ServerConfig where
  command : Option String := none
  args : Option (List String) := none
  env : Option (List (String × String)) := none
  ws_url : Option String := none
  url : Option String := none
  timeout : Option Nat := none
  sseReadTimeout : Option Nat := none
  authToken : Option String := none
  headers : Option (List (String × String)) := none
  deriving DecidableEq, Repr

/-- The connector variant built by `createConnectorFromConfig`: StdioConnector
(process-backed), WebSocketConnector (socket-backed) or HTTPConnector
(stream-backed), with the construction arguments it received. -/
inductive Connector where
  | stdio (command : String) (args : List String)
      (env : Option (List (String × String)))
  | websocket (cfg : ServerConfig)
  | http (cfg : ServerConfig)
  deriving DecidableEq, Repr

/-- Model of `createConnectorFromConfig` (src/src/config.ts lines 84-119): infer the
connector type from which keys are present, checking `command`+`args` first,
then `ws_url`, then `url`, and failing otherwise. -/
def createConnectorFromConfig (cfg : ServerConfig) : Except String Connector :=
  match cfg.command, cfg.args with
  | some cmd, some as_ => .ok (.stdio cmd as_ cfg.env)
  | _, _ =>
    match cfg.ws_url with
    | some _ => .ok (.websocket cfg)
    | none =>
      match cfg.url with
      | some _ => .ok (.http cfg)
      | none =>
        .error "Cannot determine connector type from config. Ensure config has required keys (ws_url, url, or command/args)."

/-- Runtime state of a `BaseConnector` (src/unnamed/part_006): its variant,
the `_connected` flag, and the lazily-populated `_tools` cache (`none` until
`initialize()` fetches it; reset to `none` by disconnect cleanup). -/
structure ConnectorState where
  conn : Connector
  connected : Bool := false
  tools : Option (List Tool) := none
  deriving DecidableEq, Repr

/-- Model of `BaseConnector.getTools` (src/unnamed/part_006 lines 137-144): the cached
tools, or a not-initialized error when `_tools` is null. -/
def BaseConnector.getTools (c : ConnectorState) : Except String (List Tool) :=
  match c.tools with
  | none => .error "MCP client is not initialized or tools not fetched"
  | some ts => .ok ts

/-- An `MCPSession` (session.ts, reproduced in src/README.md): one connector
plus the session-level `tools` array and the auto-connect flag. -/
structure MCPSession where
  connector : ConnectorState
  tools : List Tool := []
  autoConnect : Bool := true
  deriving DecidableEq, Repr

/-- Model of `MCPSession.discoverTools`: return `[]` without error when the connector
is not connected; otherwise store and return `connector.getTools()` — which
throws a not-initialized error when the connector has not fetched tools. -/
def MCPSession.discoverTools (s : MCPSession) :
    Except String (List Tool × MCPSession) :=
  if s.connector.connected then
    match BaseConnector.getTools s.connector with
    | .error e => .error e
    | .ok ts => .ok (ts, { s with tools := ts })
  else
    .ok ([], s)

/-- Oracle for the asynchronous I/O steps of session creation and
initialization: the `createTransport()`/`client.connect(transport)` step in
`MCPClient.createSession`, the connector's own `connect()` used by the
session's auto-connect, and the `client.listTools()` round trip inside
`BaseConnector.initialize`. -/
structure ConnectOracle where
  transportConnect : Except String Unit := .ok ()
  sessionConnect : Except String Unit := .ok ()
  listTools : Except String (List Tool) := .ok []
  deriving Repr

/-- Model of `MCPSession.initialize`: auto-connect when unconnected and enabled; fail
with not-connected when still unconnected; then `connector.initialize()`
(fetches and caches the tool list) followed by `discoverTools()`.  Returns
the session state after whatever mutations happened plus the error, if any,
that the call would have thrown. -/
def MCPSession.initialize (s : MCPSession) (o : ConnectOracle) :
    MCPSession × Option String :=
  let afterConnect : MCPSession × Option String :=
    if !s.connector.connected && s.autoConnect then
      match o.sessionConnect with
      | .ok _ => ({ s with connector := { s.connector with connected := true } }, none)
      | .error e => (s, some e)
    else (s, none)
  match afterConnect.2 with
  | some e => (afterConnect.1, some e)
  | none =>
    let s1 := afterConnect.1
    if !s1.connector.connected then
      (s1, some "Connector not connected")
    else
      match o.listTools with
      | .error e => (s1, some e)
      | .ok ts =>
        let s2 := { s1 with connector := { s1.connector with tools := some ts } }
        match s2.discoverTools with
        | .error e => (s2, some e)
        | .ok (_, s3) => (s3, none)

/-- Remove a key from an association list (JS `delete obj[k]`). -/
def aerase {α : Type} (l : List (String × α)) (k : String) : List (String × α) :=
  l.filter (fun p => p.1 != k)

/-- Set a key in an association list (JS `obj[k] = v`). -/
def ainsert {α : Type} (l : List (String × α)) (k : String) (v : α) :
    List (String × α) :=
  (k, v) :: aerase l k

/-- An `MCPClient` (src/src/logging.ts lines 259-492): the name→config
registry (`config.mcpServers`, always present after construction), the
name→session registry, and the active-session name list. -/
structure MCPClient where
  mcpServers : List (String × ServerConfig) := []
  sessions : List (String × MCPSession) := []
  activeSessions : List String := []
  deriving DecidableEq, Repr

/-- Observable steps of `MCPClient.removeServer`, in the order the source
performs them. -/
inductive ClientEv where
  | deleteConfig (n : String)
  | removeActive (n : String)
  | closeSessionEv (n : String)
  deriving DecidableEq, Repr

/-- Model of `MCPClient.getServerNames`. -/
def MCPClient.getServerNames (c : MCPClient) : List String :=
  c.mcpServers.map (·.1)

/-- Model of `MCPClient.closeSession` (src/src/logging.ts lines 449-469): when a
session exists, run the connector's disconnect (outcome `dr`; an error is
caught and logged, returned here as the second component), then delete the
session entry and splice the name out of `activeSessions` unconditionally.
When no session exists, warn and leave everything unchanged. -/
def MCPClient.closeSession (c : MCPClient) (name : String)
    (dr : Except String Unit) : MCPClient × Option String :=
  match c.sessions.lookup name with
  | some _ =>
    let logged := match dr with | .ok _ => none | .error e => some e
    ({ c with sessions := aerase c.sessions name,
              activeSessions := c.activeSessions.erase name }, logged)
  | none => (c, none)

/-- Model of `MCPClient.removeServer` (src/src/logging.ts lines 301-322): when the
config exists, delete it, splice the name from `activeSessions`, then — if a
session instance exists — initiate `closeSession` (its rejection is caught
and logged, never propagated).  Returns the state after the initiated close
settles, plus the trace of steps in source order. -/
def MCPClient.removeServer (c : MCPClient) (name : String)
    (dr : Except String Unit) : MCPClient × List ClientEv :=
  if (c.mcpServers.lookup name).isSome then
    let c1 : MCPClient := { c with mcpServers := aerase c.mcpServers name }
    let step2 : MCPClient × List ClientEv :=
      if c1.activeSessions.contains name then
        ({ c1 with activeSessions := c1.activeSessions.erase name },
         [ClientEv.deleteConfig name, ClientEv.removeActive name])
      else (c1, [ClientEv.deleteConfig name])
    if (step2.1.sessions.lookup name).isSome then
      ((step2.1.closeSession name dr).1, step2.2 ++ [ClientEv.closeSessionEv name])
    else step2
  else (c, [])

/-- A freshly constructed session wrapping a newly built connector. -/
def mkSession (conn : Connector) : MCPSession :=
  { connector := { conn := conn } }

/-- Model of `MCPClient.createSession` (src/src/logging.ts lines 340-405): look up
the config (failing with the config error when the name is absent, touching
no state); build the connector (`createConnectorFromConfig` errors are
re-thrown); perform the transport connect (errors re-thrown); then, when
`autoInitialize`, run `session.initialize()` — a failure there is logged and
the partially-initialized session is still registered.  Finally register the
session and add the name to `activeSessions` when not already present. -/
def MCPClient.createSession (c : MCPClient) (name : String)
    (autoInitialize : Bool) (o : ConnectOracle) :
    MCPClient × Except String MCPSession :=
  match c.mcpServers.lookup name with
  | none => (c, .error ("Server '" ++ name ++ "' not found in config"))
  | some cfg =>
    match createConnectorFromConfig cfg with
    | .error e => (c, .error e)
    | .ok conn =>
      match o.transportConnect with
      | .error e => (c, .error e)
      | .ok _ =>
        let s0 := mkSession conn
        let s1 := if autoInitialize then ( MCPSession.initialize s0 o).1 else s0
        ({ c with sessions := ainsert c.sessions name s1,
                  activeSessions :=
                    if c.activeSessions.contains name then c.activeSessions
                    else c.activeSessions ++ [name] },
         .ok s1)

/-- Model of `MCPClient.getSession`: the registered session, or a lookup error. -/
def MCPClient.getSession (c : MCPClient) (name : String) :
    Except String MCPSession :=
  match c.sessions.lookup name with
  | some s => .ok s
  | none => .error ("No session exists for server '" ++ name ++ "'")

/-- Combined state of a `ServerManager` (src/src/agents/server_manager.ts)
and the `MCPClient` it references. -/
structure ManagedState where
  client : MCPClient
  activeServer : Option String := none
  initializedServers : List String := []
  serverToolsCache : List (String × List Tool) := []
  deriving DecidableEq, Repr

/-- Observable side effects of `ServerManager.connectToServer`: a session
was created via the client, or tools were fetched via the adapter. -/
inductive SMEv where
  | sessionCreated (n : String)
  | toolsFetched (n : String)
  deriving DecidableEq, Repr

/-- The success message of `connectToServer`. -/
def successMsg (name : String) : String :=
  "Successfully connected to MCP server '" ++ name ++ "'. You can now use its tools."

/-- The catch-block message of `connectToServer`. -/
def failMsg (name e : String) : String :=
  "Failed to connect to server '" ++ name ++ "': " ++ e

/-- The tail of `connectToServer` once a session is in hand: mark the name
active, then — when its tool cache is cold — load tools via the adapter
(outcome `toolLoad`); a load failure reaches the catch block, which resets
`activeServer` to null and returns the failure message. -/
def finishConnect (st : ManagedState) (name : String)
    (toolLoad : Except String (List Tool)) (evs : List SMEv) :
    ManagedState × String × List SMEv :=
  let st1 := { st with activeServer := some name }
  match st1.serverToolsCache.lookup name with
  | some _ => (st1, successMsg name, evs)
  | none =>
    match toolLoad with
    | .error e => ({ st1 with activeServer := none }, failMsg name e, evs)
    | .ok ts =>
      ({ st1 with
          serverToolsCache := ainsert st1.serverToolsCache name ts,
          initializedServers :=
            if st1.initializedServers.contains name then st1.initializedServers
            else st1.initializedServers ++ [name] },
       successMsg name, evs ++ [SMEv.toolsFetched name])

/-- Model of `ServerManager.connectToServer` (src/src/agents/server_manager.ts lines
152-193): not-found message for unregistered names; early "already
connected" return when the name is already active; otherwise reuse the
client's session or create one (a creation failure reaches the catch block:
`activeServer := null` and the failure message), then `finishConnect`. -/
def ServerManager.connectToServer (st : ManagedState) (name : String)
    (o : ConnectOracle) (toolLoad : Except String (List Tool)) :
    ManagedState × String × List SMEv :=
  let names := st.client.getServerNames
  if !names.contains name then
    (st, "Server '" ++ name ++ "' not found. Available servers: " ++
         (if names.isEmpty then "none" else String.intercalate ", " names), [])
  else if st.activeServer = some name then
    (st, "Already connected to MCP server '" ++ name ++ "'.", [])
  else
    match st.client.sessions.lookup name with
    | some _ => finishConnect st name toolLoad []
    | none =>
      match st.client.createSession name true o with
      | (c', .error e) =>
        ({ st with client := c', activeServer := none }, failMsg name e, [])
      | (c', .ok _) =>
        finishConnect { st with client := c' } name toolLoad
          [SMEv.sessionCreated name]

/-- Model of `ServerManager.disconnectFromServer`: clears the active-name pointer
only; the client session is untouched. -/
def ServerManager.disconnectFromServer (st : ManagedState) :
    ManagedState × String :=
  match st.activeServer with
  | none => (st, "Not connected to any MCP server.")
  | some n =>
    ({ st with activeServer := none },
     "Disconnected from MCP server '" ++ n ++ "'.")

/-- Spec invariant 5: the active-server name, if set, refers to a live entry
in the client's session registry. -/
def smInvariant (st : ManagedState) : Prop :=
  ∀ n, st.activeServer = some n → (st.client.sessions.lookup n).isSome = true

/-! ### Helper lemmas -/

theorem startCall_fresh {T : Type} (s : CMState T)
    (hconn : s.connection = none) (hpend : s.pendingId = none) :
    startCall s =
      ({ s with isReady := false, error := none,
                pendingId := some s.nextId, nextId := s.nextId + 1 },
       .started s.nextId) := by
  unfold startCall
  rw [hconn, hpend]

theorem startCall_joined {T : Type} (s : CMState T) (i : Nat)
    (hconn : s.connection = none) (hpend : s.pendingId = some i) :
    startCall s = (s, .joined i) := by
  unfold startCall
  rw [hconn, hpend]

theorem startCalls_all_joined {T : Type} (s : CMState T) (i : Nat) (m : Nat)
    (hconn : s.connection = none) (hpend : s.pendingId = some i) :
    startCalls s m = (s, List.replicate m (.joined i)) := by
  induction m with
  | zero => rfl
  | succ k ih =>
    simp [startCalls, startCall_joined s i hconn hpend, ih, List.replicate_succ]

theorem filter_isStarted_replicate {T : Type} (m i : Nat) :
    (List.replicate m (StartRes.joined i) : List (StartRes T)).filter
        StartRes.isStarted = [] := by
  induction m with
  | zero => rfl
  | succ k ih =>
    simp [List.replicate_succ, List.filter_cons, ih, StartRes.isStarted]

/-! ### Claim theorems -/

/-- C1: for every ConnectionManager in the idle (unconnected, no pending
attempt) state, a batch of `n` `start()` calls issued before the first
settles yields: the first call begins attempt `s.nextId`, every later call
joins that very same pending attempt, exactly one `_establishConnection`
invocation occurs, and every caller observes the one settled outcome `o`
(same success value or same failure). -/
theorem C1_start_dedup_single_connection {T : Type} (s : CMState T) (n : Nat)
    (o : Outcome T) (hconn : s.connection = none) (hpend : s.pendingId = none)
    (hn : 0 < n) :
    (startCalls s n).2 =
      StartRes.started s.nextId ::
        List.replicate (n - 1) (StartRes.joined s.nextId) ∧
    ((startCalls s n).2.filter StartRes.isStarted).length = 1 ∧
    ∀ r ∈ (startCalls s n).2, observe r o = o := by
  obtain ⟨m, rfl⟩ := Nat.exists_eq_succ_of_ne_zero (Nat.pos_iff_ne_zero.mp hn)
  have hmain : (startCalls s (m + 1)).2 =
      StartRes.started s.nextId ::
        List.replicate m (StartRes.joined s.nextId) := by
    have h1 := startCall_fresh s hconn hpend
    have h2 := startCalls_all_joined
      ({ s with isReady := false, error := none,
                pendingId := some s.nextId, nextId := s.nextId + 1 } : CMState T)
      s.nextId m hconn rfl
    simp [startCalls, h1, h2]
  refine ⟨by simpa using hmain, ?_, ?_⟩
  · rw [hmain]
    simp [List.filter_cons, StartRes.isStarted, filter_isStarted_replicate]
  · intro r hr
    rw [hmain] at hr
    rcases List.mem_cons.mp hr with h | h
    · rw [h]; rfl
    · rw [(List.eq_of_mem_replicate h)]; rfl

/-- C1 witness: three concurrent `start()` calls on a fresh manager — one
attempt started, and each caller observes the settled outcome. -/
theorem C1_start_dedup_single_connection_witness :
    ({} : CMState Nat).connection = none ∧
    ((startCalls ({} : CMState Nat) 3).2.filter StartRes.isStarted).length = 1 ∧
    ∀ r ∈ (startCalls ({} : CMState Nat) 3).2,
      observe r (Outcome.success 7) = Outcome.success 7 := by
  have h := C1_start_dedup_single_connection ({} : CMState Nat) 3
    (Outcome.success 7) rfl rfl (by decide)
  exact ⟨rfl, h.2.1, h.2.2⟩

/-- C2: a `stop()` issued while a connect attempt is pending (and no
disconnect is in flight) first awaits that attempt's settlement.  If the
connect fails, `stop()` returns the safe no-op result without ever invoking
the transport close; if it succeeds, the close is invoked, the manager ends
disconnected, and a close failure is logged (`closeErrorLogged`) rather than
raised — no constructor of `StopRes` represents an error escaping the
`stop()` path. -/
theorem C2_stop_awaits_pending_connect {T : Type} (s : CMState T)
    (o : Outcome T) (cr : Except String Unit) (i : Nat)
    (hpend : s.pendingId = some i) (hconn : s.connection = none)
    (hdis : s.disconnectPending = false) :
    (∀ e, o = .failure e →
      stopCall s o cr = (settleConnect s (.failure e), .connectFailedNoop) ∧
      (stopCall s o cr).2.closeInvoked = false) ∧
    (∀ c, o = .success c →
      (stopCall s o cr).2.closeInvoked = true ∧
      (stopCall s o cr).1.connection = none ∧
      (stopCall s o cr).1.isReady = false ∧
      ∀ e, cr = .error e → (stopCall s o cr).2 = .closeErrorLogged e) := by
  constructor
  · intro e he
    subst he
    constructor <;>
      simp [stopCall, settleConnect, hpend, hconn, hdis, StopRes.closeInvoked]
  · intro c hc
    subst hc
    cases cr with
    | ok u =>
      refine ⟨?_, ?_, ?_, ?_⟩ <;>
        simp [stopCall, settleConnect, hpend, hconn, hdis, StopRes.closeInvoked]
    | error e =>
      refine ⟨?_, ?_, ?_, ?_⟩ <;>
        simp [stopCall, settleConnect, hpend, hconn, hdis, StopRes.closeInvoked]

/-- C2 witness: a manager with a pending connect attempt whose connect
fails — `stop()` is a no-op that does not invoke the close. -/
theorem C2_stop_awaits_pending_connect_witness :
    ({ pendingId := some 0 } : CMState Nat).pendingId = some 0 ∧
    stopCall ({ pendingId := some 0 } : CMState Nat)
        (Outcome.failure "spawn error") (Except.ok ()) =
      (settleConnect ({ pendingId := some 0 } : CMState Nat)
          (Outcome.failure "spawn error"), StopRes.connectFailedNoop) ∧
    (stopCall ({ pendingId := some 0 } : CMState Nat)
        (Outcome.failure "spawn error") (Except.ok ())).2.closeInvoked = false := by
  have h := (C2_stop_awaits_pending_connect
    ({ pendingId := some 0 } : CMState Nat) (Outcome.failure "spawn error")
    (Except.ok ()) 0 rfl rfl rfl).1 "spawn error" rfl
  exact ⟨rfl, h.1, h.2⟩

theorem lookup_cons_eq {α : Type} (k k' : String) (v : α)
    (t : List (String × α)) :
    ((k', v) :: t).lookup k = if k = k' then some v else t.lookup k := by
  by_cases h : k = k'
  · simp [List.lookup, h]
  · have hb : (k == k') = false := beq_eq_false_iff_ne.mpr h
    simp [List.lookup, hb, h]

theorem lookup_aerase_self {α : Type} (l : List (String × α)) (k : String) :
    (aerase l k).lookup k = none := by
  induction l with
  | nil => rfl
  | cons p t ih =>
    obtain ⟨k', v⟩ := p
    by_cases h : k' = k
    · simpa [aerase, List.filter_cons, h] using ih
    · simpa [aerase, List.filter_cons, h, lookup_cons_eq, Ne.symm h] using ih

theorem lookup_aerase_ne {α : Type} (l : List (String × α)) (k m : String)
    (h : m ≠ k) : (aerase l k).lookup m = l.lookup m := by
  induction l with
  | nil => rfl
  | cons p t ih =>
    obtain ⟨k', v⟩ := p
    by_cases hk : k' = k
    · subst hk
      simpa [aerase, List.filter_cons, lookup_cons_eq, h] using ih
    · by_cases hm : m = k'
      · simp [aerase, List.filter_cons, hk, lookup_cons_eq, hm]
      · simpa [aerase, List.filter_cons, hk, lookup_cons_eq, hm] using ih

theorem lookup_ainsert_self {α : Type} (l : List (String × α)) (k : String)
    (v : α) : (ainsert l k v).lookup k = some v := by
  simp [ainsert, lookup_cons_eq]

theorem lookup_ainsert_ne {α : Type} (l : List (String × α)) (k m : String)
    (v : α) (h : m ≠ k) : (ainsert l k v).lookup m = l.lookup m := by
  simp [ainsert, lookup_cons_eq, h, lookup_aerase_ne l k m h]

/-- C4: `createSession` on a server name absent from the configuration
registry fails with the config error naming the server, and the client's
state — in particular the `sessions` registry and the `activeSessions`
list — is exactly as before the call. -/
theorem C4_createSession_missing_name (c : MCPClient) (name : String)
    (b : Bool) (o : ConnectOracle)
    (habs : c.mcpServers.lookup name = none) :
    c.createSession name b o =
      (c, .error ("Server '" ++ name ++ "' not found in config")) ∧
    (c.createSession name b o).1.sessions = c.sessions ∧
    (c.createSession name b o).1.activeSessions = c.activeSessions := by
  have h : c.createSession name b o =
      (c, .error ("Server '" ++ name ++ "' not found in config")) := by
    unfold MCPClient.createSession
    rw [habs]
  exact ⟨h, by rw [h], by rw [h]⟩

/-- C4 witness: looking up a missing name on a one-server client. -/
theorem C4_createSession_missing_name_witness :
    ({ mcpServers := [("a", { url := some "http://h" })] } :
        MCPClient).mcpServers.lookup "missing" = none ∧
    MCPClient.createSession
        ({ mcpServers := [("a", { url := some "http://h" })] } : MCPClient)
        "missing" true ({} : ConnectOracle) =
      (({ mcpServers := [("a", { url := some "http://h" })] } : MCPClient),
       Except.error "Server 'missing' not found in config") := by
  have h := C4_createSession_missing_name
    ({ mcpServers := [("a", { url := some "http://h" })] } : MCPClient)
    "missing" true ({} : ConnectOracle) (by decide)
  exact ⟨by decide, h.1⟩

/-- C5: connector-type inference is a pure function of which keys are
present, with precedence Process > Socket > Stream: `command`+`args`
present yields the process-backed `StdioConnector` regardless of any other
keys; `ws_url` present (without both `command` and `args`) yields the
socket-backed `WebSocketConnector`; `url` alone yields the stream/HTTP
`HTTPConnector`. -/
theorem C5_connector_inference_precedence
    (cfg cfg2 cfg3 : ServerConfig) (cmd : String) (as_ : List String)
    (w u : String)
    (h1 : cfg.command = some cmd) (h2 : cfg.args = some as_)
    (h3 : cfg2.command = none ∨ cfg2.args = none) (h4 : cfg2.ws_url = some w)
    (h5 : cfg3.command = none ∨ cfg3.args = none) (h6 : cfg3.ws_url = none)
    (h7 : cfg3.url = some u) :
    createConnectorFromConfig cfg = .ok (.stdio cmd as_ cfg.env) ∧
    createConnectorFromConfig cfg2 = .ok (.websocket cfg2) ∧
    createConnectorFromConfig cfg3 = .ok (.http cfg3) := by
  refine ⟨?_, ?_, ?_⟩
  · unfold createConnectorFromConfig
    rw [h1, h2]
  · unfold createConnectorFromConfig
    rcases h3 with h | h
    · rw [h, h4]
    · rw [h]
      cases hc : cfg2.command <;> rw [h4]
  · unfold createConnectorFromConfig
    rcases h5 with h | h
    · rw [h, h6, h7]
    · rw [h]
      cases hc : cfg3.command <;> rw [h6, h7]

/-- C5 witness: Scenario B `{command:"node",args:["s.js"]}` is inferred as
the process variant, a `ws_url` config as the socket variant, and Scenario A
`{url:"http://h"}` as the stream/HTTP variant. -/
theorem C5_connector_inference_precedence_witness :
    createConnectorFromConfig { command := some "node", args := some ["s.js"] } =
      .ok (.stdio "node" ["s.js"] none) ∧
    createConnectorFromConfig { ws_url := some "ws://h" } =
      .ok (.websocket { ws_url := some "ws://h" }) ∧
    createConnectorFromConfig { url := some "http://h" } =
      .ok (.http { url := some "http://h" }) := by
  have h := C5_connector_inference_precedence
    { command := some "node", args := some ["s.js"] }
    { ws_url := some "ws://h" } { url := some "http://h" }
    "node" ["s.js"] "ws://h" "http://h"
    rfl rfl (Or.inl rfl) rfl (Or.inl rfl) rfl rfl
  exact h

/-- C6: `closeSession` never re-throws a disconnect error — the error is
returned only as the logged value — and it removes the session entry and the
active-set entry for the name unconditionally, whatever the disconnect
outcome, while leaving every other registry entry untouched; when no session
exists for the name it is a no-op on the whole client. -/
theorem C6_closeSession_unconditional_removal (c : MCPClient) (name : String)
    (dr : Except String Unit) (hnodup : c.activeSessions.Nodup) :
    ((c.sessions.lookup name).isSome = true →
      (c.closeSession name dr).1.sessions.lookup name = none ∧
      name ∉ (c.closeSession name dr).1.activeSessions ∧
      (∀ e, dr = .error e → (c.closeSession name dr).2 = some e) ∧
      (∀ m, m ≠ name →
        (c.closeSession name dr).1.sessions.lookup m = c.sessions.lookup m) ∧
      (∀ m, m ≠ name →
        (m ∈ (c.closeSession name dr).1.activeSessions ↔
          m ∈ c.activeSessions))) ∧
    (c.sessions.lookup name = none → c.closeSession name dr = (c, none)) := by
  constructor
  · intro hsome
    obtain ⟨s, hs⟩ := Option.isSome_iff_exists.mp hsome
    unfold MCPClient.closeSession
    rw [hs]
    refine ⟨lookup_aerase_self c.sessions name, ?_, ?_, ?_, ?_⟩
    · intro hmem
      exact ((List.Nodup.mem_erase_iff hnodup).mp hmem).1 rfl
    · intro e he
      subst he
      rfl
    · intro m hm
      exact lookup_aerase_ne c.sessions name m hm
    · intro m hm
      exact List.mem_erase_of_ne hm
  · intro hnone
    unfold MCPClient.closeSession
    rw [hnone]

/-- C6 witness: closing a live session whose disconnect fails still removes
both registry entries and only logs the error. -/
theorem C6_closeSession_unconditional_removal_witness :
    (({ mcpServers := [("a", { url := some "http://h" })],
        sessions := [("a", mkSession (Connector.http { url := some "http://h" }))],
        activeSessions := ["a"] } :
          MCPClient).sessions.lookup "a").isSome = true ∧
    (MCPClient.closeSession
        ({ mcpServers := [("a", { url := some "http://h" })],
           sessions := [("a", mkSession (Connector.http { url := some "http://h" }))],
           activeSessions := ["a"] } : MCPClient)
        "a" (Except.error "socket error")).1.sessions.lookup "a" = none ∧
    "a" ∉ (MCPClient.closeSession
        ({ mcpServers := [("a", { url := some "http://h" })],
           sessions := [("a", mkSession (Connector.http { url := some "http://h" }))],
           activeSessions := ["a"] } : MCPClient)
        "a" (Except.error "socket error")).1.activeSessions ∧
    (MCPClient.closeSession
        ({ mcpServers := [("a", { url := some "http://h" })],
           sessions := [("a", mkSession (Connector.http { url := some "http://h" }))],
           activeSessions := ["a"] } : MCPClient)
        "a" (Except.error "socket error")).2 = some "socket error" := by
  have h := (C6_closeSession_unconditional_removal
    ({ mcpServers := [("a", { url := some "http://h" })],
       sessions := [("a", mkSession (Connector.http { url := some "http://h" }))],
       activeSessions := ["a"] } : MCPClient)
    "a" (Except.error "socket error") (by decide)).1 (by decide)
  exact ⟨by decide, h.1, h.2.1, h.2.2.1 "socket error" rfl⟩

/-- A concrete stream/HTTP server config used at concrete inputs. -/
def cfgHttp : ServerConfig := { url := some "http://h" }

/-- A live (connected, initialized) session over `cfgHttp`. -/
def liveSession : MCPSession :=
  { connector := { conn := Connector.http cfgHttp, connected := true,
                   tools := some [] } }

/-- A client with one configured server `"a"` holding a live session. -/
def clientWithLiveA : MCPClient :=
  { mcpServers := [("a", cfgHttp)], sessions := [("a", liveSession)],
    activeSessions := ["a"] }

/-- Holds (as `true`) when, in a `removeServer` trace, the session close occurs
strictly before the config deletion. -/
def closeBeforeConfigDelete (t : List ClientEv) (name : String) : Bool :=
  match t.findIdx? (· == ClientEv.closeSessionEv name),
        t.findIdx? (· == ClientEv.deleteConfig name) with
  | some i, some j => decide (i < j)
  | _, _ => false

/-- Holds (as `true`) when, in a `removeServer` trace, the config deletion occurs
strictly before the session close. -/
def configDeleteBeforeClose (t : List ClientEv) (name : String) : Bool :=
  match t.findIdx? (· == ClientEv.deleteConfig name),
        t.findIdx? (· == ClientEv.closeSessionEv name) with
  | some i, some j => decide (i < j)
  | _, _ => false

/-- C3 counterexample: `removeServer "a"` on a client whose `"a"` has a live
session deletes the configuration first and only afterwards initiates the
session close — the claimed closes-before-deleting-the-config order is
false at this input (the trace is delete-config, remove-active, close). -/
theorem C3_counterexample :
    (clientWithLiveA.removeServer "a" (Except.ok ())).2 =
      [ClientEv.deleteConfig "a", ClientEv.removeActive "a",
       ClientEv.closeSessionEv "a"] ∧
    closeBeforeConfigDelete
        (clientWithLiveA.removeServer "a" (Except.ok ())).2 "a" = false := by
  constructor <;> decide

/-- C3 (amended): `removeServer` on a name with both a config and a live
session deletes the configuration strictly before initiating the session
close (not the other way around as claimed), and once the initiated close
settles the config, session registry, and active list all exclude the
name. -/
theorem C3_removeServer_order_and_poststate (c : MCPClient) (name : String)
    (dr : Except String Unit)
    (hcfg : (c.mcpServers.lookup name).isSome = true)
    (hsess : (c.sessions.lookup name).isSome = true)
    (hnodup : c.activeSessions.Nodup) :
    configDeleteBeforeClose (c.removeServer name dr).2 name = true ∧
    (c.removeServer name dr).1.mcpServers.lookup name = none ∧
    (c.removeServer name dr).1.sessions.lookup name = none ∧
    name ∉ (c.removeServer name dr).1.activeSessions := by
  obtain ⟨s, hs⟩ := Option.isSome_iff_exists.mp hsess
  cases hmem : c.activeSessions.contains name with
  | true =>
    have hres : c.removeServer name dr =
        ({ mcpServers := aerase c.mcpServers name,
           sessions := aerase c.sessions name,
           activeSessions := (c.activeSessions.erase name).erase name },
         [ClientEv.deleteConfig name, ClientEv.removeActive name,
          ClientEv.closeSessionEv name]) := by
      have hmem2 : name ∈ c.activeSessions := by simpa using hmem
      simp [MCPClient.removeServer, MCPClient.closeSession, hcfg, hmem, hmem2, hs]
    rw [hres]
    refine ⟨?_, lookup_aerase_self c.mcpServers name,
            lookup_aerase_self c.sessions name, ?_⟩
    · simp [configDeleteBeforeClose, List.findIdx?_cons]
    · intro hin
      have h1 := (List.Nodup.mem_erase_iff (List.Nodup.erase name hnodup)).mp hin
      exact h1.1 rfl
  | false =>
    have hres : c.removeServer name dr =
        ({ mcpServers := aerase c.mcpServers name,
           sessions := aerase c.sessions name,
           activeSessions := c.activeSessions.erase name },
         [ClientEv.deleteConfig name, ClientEv.closeSessionEv name]) := by
      have hmem2 : name ∉ c.activeSessions := by simpa using hmem
      simp [MCPClient.removeServer, MCPClient.closeSession, hcfg, hmem, hmem2, hs]
    rw [hres]
    refine ⟨?_, lookup_aerase_self c.mcpServers name,
            lookup_aerase_self c.sessions name, ?_⟩
    · simp [configDeleteBeforeClose, List.findIdx?_cons]
    · intro hin
      have h1 : name ∈ c.activeSessions := List.mem_of_mem_erase hin
      simp at hmem
      exact hmem h1

/-- C3 (amended) witness: the concrete one-server client. -/
theorem C3_removeServer_order_and_poststate_witness :
    configDeleteBeforeClose
        (clientWithLiveA.removeServer "a" (Except.ok ())).2 "a" = true ∧
    (clientWithLiveA.removeServer "a" (Except.ok ())).1.sessions.lookup "a" =
      none ∧
    "a" ∉ (clientWithLiveA.removeServer "a" (Except.ok ())).1.activeSessions := by
  have h := C3_removeServer_order_and_poststate clientWithLiveA "a"
    (Except.ok ()) (by decide) (by decide) (by decide)
  exact ⟨h.1, h.2.2.1, h.2.2.2⟩

/-- A session whose connector is connected but has not fetched tools. -/
def sessConnUninit : MCPSession :=
  { connector := { conn := Connector.http cfgHttp, connected := true,
                   tools := none } }

/-- C7 counterexample: on a connected-but-uninitialized session,
`discoverTools()` raises the connector's not-initialized error (from
`getTools()`) instead of fetching the tools without error as claimed. -/
theorem C7_counterexample :
    MCPSession.discoverTools sessConnUninit =
      Except.error "MCP client is not initialized or tools not fetched" := rfl

/-- C7 (amended): `discoverTools()` returns the connector's cached set when
the session is connected and the connector has fetched tools; returns the
empty set without error when the session is unconnected; but when connected
and uninitialized it fails with the connector's not-initialized error
rather than fetching. -/
theorem C7_discoverTools_branches (s : MCPSession) (ts : List Tool) :
    (s.connector.connected = true → s.connector.tools = some ts →
      s.discoverTools = Except.ok (ts, { s with tools := ts })) ∧
    (s.connector.connected = false → s.discoverTools = Except.ok ([], s)) ∧
    (s.connector.connected = true → s.connector.tools = none →
      s.discoverTools =
        Except.error "MCP client is not initialized or tools not fetched") := by
  refine ⟨?_, ?_, ?_⟩
  · intro hc ht
    simp [MCPSession.discoverTools, BaseConnector.getTools, hc, ht]
  · intro hc
    simp [MCPSession.discoverTools, hc]
  · intro hc ht
    simp [MCPSession.discoverTools, BaseConnector.getTools, hc, ht]

/-- C7 (amended) witness: an initialized session returns its cache; an
unconnected session returns the empty set without error. -/
theorem C7_discoverTools_branches_witness :
    MCPSession.discoverTools
        ({ connector := { conn := Connector.http cfgHttp, connected := true,
                          tools := some ["t1"] } } : MCPSession) =
      Except.ok (["t1"],
        ({ connector := { conn := Connector.http cfgHttp, connected := true,
                          tools := some ["t1"] },
           tools := ["t1"] } : MCPSession)) ∧
    MCPSession.discoverTools
        ({ connector := { conn := Connector.http cfgHttp } } : MCPSession) =
      Except.ok ([],
        ({ connector := { conn := Connector.http cfgHttp } } : MCPSession)) := by
  constructor
  · exact (C7_discoverTools_branches
      ({ connector := { conn := Connector.http cfgHttp, connected := true,
                        tools := some ["t1"] } } : MCPSession) ["t1"]).1 rfl rfl
  · exact (C7_discoverTools_branches
      ({ connector := { conn := Connector.http cfgHttp } } : MCPSession) []).2.1 rfl

theorem createSession_pair_ok_registers (c : MCPClient) (name : String)
    (b : Bool) (o : ConnectOracle) (c' : MCPClient) (s : MCPSession)
    (h : c.createSession name b o = (c', Except.ok s)) :
    c'.sessions.lookup name = some s := by
  unfold MCPClient.createSession at h
  split at h
  · simp at h
  · split at h
    · simp at h
    · split at h
      · simp at h
      · injection h with hfst hsnd
        injection hsnd with hss
        rw [← hfst]
        simpa [lookup_ainsert_self] using hss

theorem finishConnect_invariant (st : ManagedState) (name : String)
    (toolLoad : Except String (List Tool)) (evs : List SMEv)
    (hsess : (st.client.sessions.lookup name).isSome = true) :
    smInvariant (finishConnect st name toolLoad evs).1 := by
  unfold finishConnect
  dsimp only
  split
  · intro n hn
    have hn2 := Option.some.inj hn
    subst hn2
    exact hsess
  · split
    · intro n hn
      exact Option.noConfusion hn
    · intro n hn
      have hn2 := Option.some.inj hn
      subst hn2
      exact hsess

theorem finishConnect_toolLoad_error (st : ManagedState) (name : String)
    (e : String) (evs : List SMEv)
    (hcache : st.serverToolsCache.lookup name = none) :
    finishConnect st name (Except.error e) evs =
      ({ st with activeServer := none }, failMsg name e, evs) := by
  unfold finishConnect
  simp [hcache]

/-- A manager state with one configured server `"a"` and nothing active. -/
def smState0 : ManagedState := { client := { mcpServers := [("a", cfgHttp)] } }

/-- State `smState0` after a fully successful `connectToServer "a"`. -/
def smState1 : ManagedState :=
  (ServerManager.connectToServer smState0 "a" ({} : ConnectOracle)
    (Except.ok [])).1

/-- State `smState1` after `Client.closeSession "a"` is invoked directly on the
client, which the ServerManager is never notified of. -/
def smState2 : ManagedState :=
  { smState1 with client := (smState1.client.closeSession "a" (Except.ok ())).1 }

/-- C8 counterexample: the reachable state obtained by `connectToServer "a"`
(successful) followed by `Client.closeSession "a"` leaves the ServerManager's
active-server name set to `"a"` while the client's session registry has no
entry for `"a"` — the claimed invariant fails. -/
theorem C8_counterexample :
    smState2.activeServer = some "a" ∧
    smState2.client.sessions.lookup "a" = none ∧
    ¬ smInvariant smState2 := by
  refine ⟨by decide, by decide, fun h => ?_⟩
  exact absurd (h "a" (by decide)) (by decide)

/-- C8 (amended): the invariant "the active-server name, if set, has a live
entry in Client.sessions" is preserved by the ServerManager's own
operations — `connectToServer` (for every oracle outcome) and
`disconnectFromServer` — but it is not maintained in every state reachable
through arbitrary Client operations, since `Client.closeSession` /
`removeServer` on the active name do not notify the ServerManager. -/
theorem C8_serverManager_ops_preserve_invariant (st : ManagedState)
    (name : String) (o : ConnectOracle) (toolLoad : Except String (List Tool))
    (hinv : smInvariant st) :
    smInvariant (ServerManager.connectToServer st name o toolLoad).1 ∧
    smInvariant (ServerManager.disconnectFromServer st).1 := by
  constructor
  · unfold ServerManager.connectToServer
    dsimp only
    split
    · exact hinv
    · split
      · exact hinv
      · split
        · next s hlk =>
          exact finishConnect_invariant st name toolLoad [] (by rw [hlk]; rfl)
        · next hlk =>
          split
          · next c' e heq =>
            intro n hn
            exact Option.noConfusion hn
          · next c' s heq =>
            apply finishConnect_invariant
            have hreg := createSession_pair_ok_registers st.client name true o
              c' s heq
            simp [hreg]
  · unfold ServerManager.disconnectFromServer
    split
    · exact hinv
    · intro n hn
      exact Option.noConfusion hn

/-- C8 (amended) witness: preservation at a concrete state with an active
live session. -/
theorem C8_serverManager_ops_preserve_invariant_witness :
    smInvariant
      (ServerManager.connectToServer
        ({ client := clientWithLiveA, activeServer := some "a" } : ManagedState)
        "a" ({} : ConnectOracle) (Except.ok [])).1 := by
  have h := C8_serverManager_ops_preserve_invariant
    ({ client := clientWithLiveA, activeServer := some "a" } : ManagedState)
    "a" ({} : ConnectOracle) (Except.ok [])
    (by intro n hn; cases Option.some.inj hn; decide)
  exact h.1

/-- C9: `connectToServer(name)` on a registered name that is already the
active server returns exactly the "already connected" status with the state
untouched and an empty effect trace — no session creation, no tool fetch,
and no change to the tool cache, the active pointer, or the client. -/
theorem C9_connectToServer_already_active (st : ManagedState) (name : String)
    (o : ConnectOracle) (toolLoad : Except String (List Tool))
    (hreg : st.client.getServerNames.contains name = true)
    (hact : st.activeServer = some name) :
    ServerManager.connectToServer st name o toolLoad =
      (st, "Already connected to MCP server '" ++ name ++ "'.", []) := by
  have hmem : name ∈ st.client.getServerNames := by simpa using hreg
  unfold ServerManager.connectToServer
  simp [hreg, hmem, hact]

/-- C9 witness: reconnecting to the already-active `"a"`. -/
theorem C9_connectToServer_already_active_witness :
    ServerManager.connectToServer
        ({ client := clientWithLiveA, activeServer := some "a" } : ManagedState)
        "a" ({} : ConnectOracle) (Except.ok []) =
      (({ client := clientWithLiveA, activeServer := some "a" } : ManagedState),
       "Already connected to MCP server 'a'.", []) := by
  exact C9_connectToServer_already_active
    ({ client := clientWithLiveA, activeServer := some "a" } : ManagedState)
    "a" ({} : ConnectOracle) (Except.ok []) (by decide) rfl

/-- The acquisition phase of `connectToServer` throws: either no session
exists and `createSession` fails, or the tool cache is cold and the adapter
tool load fails after a session was obtained. -/
def acquisitionFails (st : ManagedState) (name : String) (o : ConnectOracle)
    (toolLoad : Except String (List Tool)) : Prop :=
  (st.client.sessions.lookup name = none ∧
    ∃ e, (st.client.createSession name true o).2 = Except.error e) ∨
  (st.serverToolsCache.lookup name = none ∧
    (∃ e, toolLoad = Except.error e) ∧
    ((∃ s, st.client.sessions.lookup name = some s) ∨
     (∃ s, (st.client.createSession name true o).2 = Except.ok s)))

/-- C10: on a registered, not-currently-active name, when obtaining the
session or loading its tools throws, `connectToServer` returns the failure
message and unconditionally resets the active-server pointer to `none` —
even when a different server was active before the call, whose selection is
lost rather than restored. -/
theorem C10_connect_failure_resets_active (st : ManagedState) (name : String)
    (o : ConnectOracle) (toolLoad : Except String (List Tool))
    (hreg : st.client.getServerNames.contains name = true)
    (hnact : st.activeServer ≠ some name)
    (hfail : acquisitionFails st name o toolLoad) :
    (ServerManager.connectToServer st name o toolLoad).1.activeServer = none ∧
    ∃ e, (ServerManager.connectToServer st name o toolLoad).2.1 =
      failMsg name e := by
  have hb : (!st.client.getServerNames.contains name) = false := by
    rw [hreg]; rfl
  unfold ServerManager.connectToServer
  dsimp only
  rw [hb, if_neg Bool.false_ne_true, if_neg hnact]
  cases hl : st.client.sessions.lookup name with
  | some s =>
    rcases hfail with ⟨hnone, _⟩ | ⟨hcache, ⟨e, htl⟩, _⟩
    · rw [hl] at hnone
      cases hnone
    · subst htl
      rw [finishConnect_toolLoad_error st name e [] hcache]
      exact ⟨rfl, e, rfl⟩
  | none =>
    rcases hq : st.client.createSession name true o with ⟨c', r⟩
    dsimp only
    cases r with
    | error e => exact ⟨rfl, e, rfl⟩
    | ok s =>
      dsimp only
      rcases hfail with ⟨_, e, herr⟩ | ⟨hcache, ⟨e, htl⟩, _⟩
      · rw [hq] at herr
        simp at herr
      · subst htl
        rw [finishConnect_toolLoad_error { st with client := c' } name e
          [SMEv.sessionCreated name] hcache]
        exact ⟨rfl, e, rfl⟩

/-- C10 witness: server `"b"` is active; connecting to registered `"a"`
whose connector cannot be built fails and leaves no server active. -/
theorem C10_connect_failure_resets_active_witness :
    ({ client := { mcpServers := [("a", ({} : ServerConfig))] },
       activeServer := some "b" } : ManagedState).activeServer = some "b" ∧
    (ServerManager.connectToServer
        ({ client := { mcpServers := [("a", ({} : ServerConfig))] },
           activeServer := some "b" } : ManagedState)
        "a" ({} : ConnectOracle) (Except.ok [])).1.activeServer = none := by
  have h := C10_connect_failure_resets_active
    ({ client := { mcpServers := [("a", ({} : ServerConfig))] },
       activeServer := some "b" } : ManagedState)
    "a" ({} : ConnectOracle) (Except.ok []) (by decide) (by decide)
    (Or.inl ⟨rfl,
      ⟨"Cannot determine connector type from config. Ensure config has required keys (ws_url, url, or command/args).",
       rfl⟩⟩)
  exact ⟨rfl, h.1⟩

end EasyMcpUse
